import Mathlib

/-!
Shallow embedding of the OverlapGraph repository core, together with
theorems checking the natural-language specification against the code.

Numeric values (IEEE-754 doubles in the source) are modelled as rationals:
every claim below is about orderings, exact comparisons and exact
arithmetic on the given values, for which `ℚ` is a faithful carrier.
-/

namespace OverlapGraph

/-- Python errors surfaced by `slig/core/shapes/interval.py`.
`emptyInput` models the `AssertionError` raised by the length guard of the
fold constructors (the spec's `EmptyInput` kind); `attributeError` models
the `AttributeError` raised when an undefined method is looked up;
`assertionError` models any other failed `assert`. -/
inductive PyError where
  | emptyInput
  | attributeError
  | assertionError
deriving DecidableEq

/-- `Interval` dataclass of `slig/core/shapes/interval.py`: the pair of
`lower` and `upper` bounding values.  Dataclass equality compares the two
fields. -/
structure Interval where
  lower : ℚ
  upper : ℚ
deriving DecidableEq

/-- `Interval.assign(self, lower, upper)`: overwrites both bounds of the
existing interval, swapping the two arguments when `lower > upper`.  The
result is the post-state of the mutated object; it does not depend on the
pre-state because both fields are overwritten. -/
def Interval.assign (_self : Interval) (lower upper : ℚ) : Interval :=
  if lower > upper then ⟨upper, lower⟩ else ⟨lower, upper⟩

/-- `Interval.__init__(lower, upper)`: delegates to `assign`, so the
smaller argument becomes `lower`. -/
def Interval.make (lower upper : ℚ) : Interval :=
  Interval.assign ⟨lower, upper⟩ lower upper

/-- `Interval.length` property: `abs(self.upper - self.lower)`. -/
def Interval.length (self : Interval) : ℚ :=
  |self.upper - self.lower|

/-- `Interval.midpoint` property: `(self.lower + self.upper) / 2`. -/
def Interval.midpoint (self : Interval) : ℚ :=
  (self.lower + self.upper) / 2

/-- `Interval.contains(value, inc_lower, inc_upper)`:
`gte_lower and lte_upper` with each bound strict or inclusive according to
its flag. -/
def Interval.contains (self : Interval) (value : ℚ)
    (inc_lower inc_upper : Bool) : Bool :=
  let gte_lower := if inc_lower then decide (self.lower ≤ value)
                   else decide (self.lower < value)
  let lte_upper := if inc_upper then decide (self.upper ≥ value)
                   else decide (self.upper > value)
  gte_lower && lte_upper

/-- `Interval.is_intersecting(that, inc_bounds)`: equal intervals
short-circuit to `True`; otherwise the bound comparison is `≥` when
`inc_bounds` and `>` otherwise. -/
def Interval.is_intersecting (self that : Interval) (inc_bounds : Bool) : Bool :=
  if self = that then true
  else if inc_bounds then
    decide (self.upper ≥ that.lower) && decide (that.upper ≥ self.lower)
  else
    decide (self.upper > that.lower) && decide (that.upper > self.lower)

/-- `Interval.get_intersection(that, inc_bounds)`: `None` when not
intersecting, else the interval of the larger lower and smaller upper
bounds. -/
def Interval.get_intersection (self that : Interval) (inc_bounds : Bool) :
    Option Interval :=
  if ¬ (self.is_intersecting that inc_bounds = true) then none
  else some (Interval.make (max self.lower that.lower) (min self.upper that.upper))

/-- `Interval.get_union(that)`: interval of the smaller lower and larger
upper bounds. -/
def Interval.get_union (self that : Interval) : Interval :=
  Interval.make (min self.lower that.lower) (max self.upper that.upper)

/-- The local helper `intersect(a, b)` inside `Interval.from_intersection`.
Its first `assert` (`a != None and b != None`) passes, but the next
statement evaluates `a.overlaps(b)`: the `Interval` class defines no
`overlaps` method (it defines `is_intersecting`), so attribute lookup
raises `AttributeError` before anything else can happen. -/
def Interval.intersectFold (_a _b : Interval) : Except PyError Interval :=
  Except.error PyError.attributeError

/-- `Interval.from_intersection(intervals)` classmethod: asserts
`len(intervals) > 1` (the spec's `EmptyInput`), then runs
`reduce(intersect, intervals)` inside `try ... except AssertionError`,
which turns a failed assertion into `None` but lets every other error
propagate. -/
def Interval.from_intersection (intervals : List Interval) :
    Except PyError (Option Interval) :=
  match intervals with
  | [] => Except.error PyError.emptyInput
  | [_] => Except.error PyError.emptyInput
  | x :: rest =>
    match rest.foldlM Interval.intersectFold x with
    | Except.ok r => Except.ok (some r)
    | Except.error PyError.assertionError => Except.ok none
    | Except.error e => Except.error e

/-- Serialised form of an `Interval`: `asdict` gives a dict with `lower`
and `upper` fields, `astuple` gives a pair. -/
inductive IntervalObject where
  | dict (lower upper : ℚ)
  | tuple (fst snd : ℚ)
deriving DecidableEq

/-- `Interval.to_object(object, compact)`: `astuple` when compact,
`asdict` otherwise. -/
def Interval.to_object (object : Interval) (compact : Bool) : IntervalObject :=
  if compact then IntervalObject.tuple object.lower object.upper
  else IntervalObject.dict object.lower object.upper

/-- `Interval.from_object(object)`: rebuilds the interval through the
constructor from either a dict or a pair. -/
def Interval.from_object : IntervalObject → Interval
  | IntervalObject.dict l u => Interval.make l u
  | IntervalObject.tuple a b => Interval.make a b

/-- Error raised by `Interval.__setattr__` for the guarded fields. -/
inductive AttrError where
  | immutableAttribute (name : String)
deriving DecidableEq

/-- `Interval.__setattr__(name, value)`: raises for `lower` and `upper`;
any other name falls through to `object.__setattr__` (which, on this
two-field dataclass, leaves the modelled state unchanged). -/
def Interval.setattr (self : Interval) (name : String) (_value : ℚ) :
    Except AttrError Interval :=
  if name = "lower" ∨ name = "upper" then
    Except.error (AttrError.immutableAttribute name)
  else
    Except.ok self

/-- C6: every `Interval` built by the constructor puts the smaller value
in `lower`, satisfies `lower ≤ upper`, and has
`length = upper − lower ≥ 0`. -/
theorem interval_constructor_orders_bounds (a b : ℚ) :
    (Interval.make a b).lower = min a b ∧
    (Interval.make a b).upper = max a b ∧
    (Interval.make a b).lower ≤ (Interval.make a b).upper ∧
    (Interval.make a b).length =
      (Interval.make a b).upper - (Interval.make a b).lower ∧
    0 ≤ (Interval.make a b).length := by
  unfold Interval.make Interval.assign Interval.length
  by_cases h : a > b
  · simp only [if_pos h]
    constructor
    · simp [min_eq_right (le_of_lt h)]
    constructor
    · simp [max_eq_left (le_of_lt h)]
    refine ⟨le_of_lt h, ?_, ?_⟩
    · simp only [abs_of_nonneg (sub_nonneg.mpr (le_of_lt h))]
    · simp [abs_nonneg]
  · push_neg at h
    simp only [if_neg (not_lt.mpr h)]
    constructor
    · simp [min_eq_left h]
    constructor
    · simp [max_eq_right h]
    refine ⟨h, ?_, ?_⟩
    · simp only [abs_of_nonneg (sub_nonneg.mpr h)]
    · simp [abs_nonneg]

/-- When the arguments are already ordered the constructor keeps them. -/
theorem Interval.make_of_le {a b : ℚ} (h : a ≤ b) :
    Interval.make a b = ⟨a, b⟩ := by
  unfold Interval.make Interval.assign
  simp [not_lt.mpr h]

/-- C4: away from the equal-intervals short-circuit, `is_intersecting`
with `inc_bounds=false` is exactly `self.upper > that.lower AND
that.upper > self.lower` and with `inc_bounds=true` the strict `>`
becomes `≥`; exactly adjacent intervals `[a,b]` and `[b,c]` are not
intersecting without bounds and intersecting with bounds; equal intervals
intersect unconditionally. -/
theorem is_intersecting_bound_semantics (i j : Interval) (a b c : ℚ)
    (hij : i ≠ j) (hab : a ≤ b) (hbc : b ≤ c) (hdeg : ¬ (a = b ∧ b = c)) :
    (i.is_intersecting j false =
      (decide (i.upper > j.lower) && decide (j.upper > i.lower))) ∧
    (i.is_intersecting j true =
      (decide (i.upper ≥ j.lower) && decide (j.upper ≥ i.lower))) ∧
    ((Interval.make a b).is_intersecting (Interval.make b c) false = false) ∧
    ((Interval.make a b).is_intersecting (Interval.make b c) true = true) ∧
    (∀ k : Interval, k.is_intersecting k false = true ∧
                     k.is_intersecting k true = true) := by
  rw [Interval.make_of_le hab, Interval.make_of_le hbc]
  have hmk : (⟨a, b⟩ : Interval) ≠ ⟨b, c⟩ := by
    intro h
    exact hdeg ⟨(Interval.mk.injEq _ _ _ _).mp h |>.1,
                (Interval.mk.injEq _ _ _ _).mp h |>.2⟩
  refine ⟨?_, ?_, ?_, ?_, ?_⟩
  · simp [Interval.is_intersecting, hij]
  · simp [Interval.is_intersecting, hij]
  · simp [Interval.is_intersecting, hmk]
  · simp [Interval.is_intersecting, hmk, le_refl, hab.trans hbc]
  · intro k
    constructor <;> simp [Interval.is_intersecting]

/-- C4 witness at `i=[0,1]`, `j=[2,3]`, `a=0`, `b=1`, `c=2`. -/
theorem is_intersecting_bound_semantics_witness :
    ((Interval.make 0 1).is_intersecting (Interval.make 2 3) false =
      (decide ((Interval.make 0 1).upper > (Interval.make 2 3).lower) &&
       decide ((Interval.make 2 3).upper > (Interval.make 0 1).lower))) ∧
    ((Interval.make 0 1).is_intersecting (Interval.make 2 3) true =
      (decide ((Interval.make 0 1).upper ≥ (Interval.make 2 3).lower) &&
       decide ((Interval.make 2 3).upper ≥ (Interval.make 0 1).lower))) ∧
    ((Interval.make 0 1).is_intersecting (Interval.make 1 2) false = false) ∧
    ((Interval.make 0 1).is_intersecting (Interval.make 1 2) true = true) ∧
    (∀ k : Interval, k.is_intersecting k false = true ∧
                     k.is_intersecting k true = true) :=
  is_intersecting_bound_semantics (Interval.make 0 1) (Interval.make 2 3)
    0 1 2 (by decide) (by norm_num) (by norm_num) (by norm_num)

/-- C5 counterexample: the zero-length interval `[2,2]` *does* intersect
`[1,3]` with `inc_bounds=false`, refuting the claim that a zero-length
interval intersects another interval only when `inc_bounds=true`. -/
theorem zero_length_intersecting_counterexample :
    (Interval.make 2 2).is_intersecting (Interval.make 1 3) false = true ∧
    ¬ (false = true ∧ (Interval.make 1 3).contains 2 true true = true) := by
  refine ⟨by rfl, ?_⟩
  intro h
  exact Bool.false_ne_true h.1

/-- C5 as amended: `[x,x].contains x = inc_lower ∧ inc_upper`; `[x,x]`
intersects `that` with `inc_bounds=true` iff `that` contains `x`
inclusively, and with `inc_bounds=false` iff `that` contains `x` with both
bounds excluded or `that` equals `[x,x]`. -/
theorem zero_length_interval_queries (x : ℚ) (that : Interval) (il iu : Bool) :
    ((Interval.make x x).contains x il iu = (il && iu)) ∧
    ((Interval.make x x).is_intersecting that true = that.contains x true true) ∧
    ((Interval.make x x).is_intersecting that false =
      (that.contains x false false || decide (that = Interval.make x x))) := by
  rw [Interval.make_of_le (le_refl x)]
  refine ⟨?_, ?_, ?_⟩
  · cases il <;> cases iu <;> simp [Interval.contains]
  · by_cases h : (⟨x, x⟩ : Interval) = that
    · subst h
      simp [Interval.is_intersecting, Interval.contains]
    · simp [Interval.is_intersecting, Interval.contains, h, ge_iff_le]
  · by_cases h : (⟨x, x⟩ : Interval) = that
    · subst h
      simp [Interval.is_intersecting]
    · have h' : that ≠ ⟨x, x⟩ := fun hc => h hc.symm
      simp [Interval.is_intersecting, Interval.contains, h, h', gt_iff_lt,
            Bool.and_comm]

/-- C8: serialising an Interval to a dict with `to_object` and
deserialising with `from_object` yields an Interval equal to the
original. -/
theorem interval_dict_roundtrip (i : Interval) (h : i.lower ≤ i.upper) :
    Interval.from_object (Interval.to_object i false) = i := by
  show Interval.make i.lower i.upper = i
  rw [Interval.make_of_le h]

/-- C8 witness at the interval `[3,7]`. -/
theorem interval_dict_roundtrip_witness :
    Interval.from_object (Interval.to_object (Interval.make 3 7) false) =
      Interval.make 3 7 :=
  interval_dict_roundtrip (Interval.make 3 7) (by norm_num [Interval.make_of_le])

/-- C9: direct assignment to `lower` or `upper` raises, while the public
`assign` method rebinds the interval in place, swapping its two arguments
when needed, so the post-state always satisfies `lower ≤ upper`. -/
theorem setattr_guard_and_assign (i : Interval) (v a b : ℚ) :
    i.setattr "lower" v = Except.error (AttrError.immutableAttribute "lower") ∧
    i.setattr "upper" v = Except.error (AttrError.immutableAttribute "upper") ∧
    i.assign a b = ⟨min a b, max a b⟩ ∧
    (i.assign a b).lower ≤ (i.assign a b).upper := by
  refine ⟨rfl, rfl, ?_, ?_⟩
  · unfold Interval.assign
    by_cases h : a > b
    · simp [h, min_eq_right (le_of_lt h), max_eq_left (le_of_lt h)]
    · push_neg at h
      simp [not_lt.mpr h, min_eq_left h, max_eq_right h]
  · unfold Interval.assign
    by_cases h : a > b
    · simp [h, le_of_lt h]
    · push_neg at h
      simp [not_lt.mpr h, h]

/-- C1 (code bug): for any list of two or more intervals,
`from_intersection` raises an uncaught `AttributeError` (the `Interval`
class defines no `overlaps` method), instead of returning the fold under
`get_intersection` — here `get_intersection` itself would give `[1,2]` —
while fewer than two inputs do fail with the `EmptyInput` assertion. -/
theorem from_intersection_attribute_error :
    Interval.from_intersection [Interval.make 0 2, Interval.make 1 3] =
      Except.error PyError.attributeError ∧
    (Interval.make 0 2).get_intersection (Interval.make 1 3) false =
      some (Interval.make 1 2) ∧
    Interval.from_intersection [Interval.make 0 2] =
      Except.error PyError.emptyInput :=
  ⟨rfl, rfl, rfl⟩

/-- Modelled from the spec: the `Region` data model (§3) — the defining
source file (`sources/.../shapes/region.py`) is not under `src/`.  A
Region is an ordered tuple of factor Intervals plus a stable string
identifier; `region[dimension]` projects the factor on that dimension. -/
structure Region where
  id : String
  factors : List Interval
deriving DecidableEq

/-- Modelled from the spec: the dimension of a Region is the number of
its factors. -/
def Region.dimension (self : Region) : Nat :=
  self.factors.length

/-- `RegionEvtKind` enum of `sources/core/datasets/regiontime.py`:
`IntEnum` with `auto()` values `Init=1, Begin=2, End=3, Done=4`. -/
inductive RegionEvtKind where
  | Init
  | Begin
  | End
  | Done
deriving DecidableEq

/-- Integer value of the `IntEnum` member, used by `kind` comparisons. -/
def RegionEvtKind.val : RegionEvtKind → Nat
  | RegionEvtKind.Init => 1
  | RegionEvtKind.Begin => 2
  | RegionEvtKind.End => 3
  | RegionEvtKind.Done => 4

/-- `RegionEvent` dataclass: kind, context Region, sweep dimension, the
`when` position and the integer `order` tie-break priority. -/
structure RegionEvent where
  kind : RegionEvtKind
  context : Region
  dimension : Nat
  when : ℚ
  order : Int
deriving DecidableEq

/-- `RegionEvent.__init__(kind, context, dimension)`: asserts the
dimension is in range (modelled as `none`), sets `when` to the context
factor's lower bound for Init/Begin and upper bound for Done/End, and
sets `order` to `(0 if length == 0 else 1) * (-1 if kind == End else 1)`,
overridden to `-2` for Init and `2` for Done. -/
def RegionEvent.make (kind : RegionEvtKind) (context : Region)
    (dimension : Nat) : Option RegionEvent :=
  match context.factors.get? dimension with
  | none => none
  | some iv =>
    some { kind := kind
           context := context
           dimension := dimension
           when :=
             match kind with
             | RegionEvtKind.Init => iv.lower
             | RegionEvtKind.Begin => iv.lower
             | RegionEvtKind.Done => iv.upper
             | RegionEvtKind.End => iv.upper
           order :=
             match kind with
             | RegionEvtKind.Init => -2
             | RegionEvtKind.Done => 2
             | k =>
               (if iv.length = 0 then 0 else 1) *
                 (if k = RegionEvtKind.End then -1 else 1) }

/-- `RegionEvent.__eq__`: equal `when`, equal `kind` and the same
context.  The source compares contexts with `is`; object identity is
modelled as value equality of the Region. -/
def RegionEvent.eq (self that : RegionEvent) : Bool :=
  decide (self.when = that.when) && decide (self.kind = that.kind) &&
    decide (self.context = that.context)

/-- `RegionEvent.__lt__`: equal events are not less; then lower `when`,
then lower `order`, then — when the contexts are identical or share an
id — lower `kind` value, otherwise lower `context.id`. -/
def RegionEvent.lt (self that : RegionEvent) : Bool :=
  if RegionEvent.eq self that then false
  else if self.when ≠ that.when then decide (self.when < that.when)
  else if self.order ≠ that.order then decide (self.order < that.order)
  else if self.context = that.context ∨ self.context.id = that.context.id then
    decide (self.kind.val < that.kind.val)
  else decide (self.context.id < that.context.id)

/-- C2: the `order` tie-break of a constructed RegionEvent is −2 for
Init, −1 for End of a non-zero-length factor, 0 for Begin or End of a
zero-length factor, +1 for Begin of a non-zero-length factor, and +2 for
Done. -/
theorem region_event_order_values (k : RegionEvtKind) (r : Region) (d : Nat)
    (iv : Interval) (hiv : r.factors.get? d = some iv) :
    ∃ e : RegionEvent, RegionEvent.make k r d = some e ∧
      e.order = (match k with
        | RegionEvtKind.Init => -2
        | RegionEvtKind.End => if iv.length = 0 then 0 else -1
        | RegionEvtKind.Begin => if iv.length = 0 then 0 else 1
        | RegionEvtKind.Done => 2) := by
  unfold RegionEvent.make
  rw [hiv]
  refine ⟨_, rfl, ?_⟩
  cases k <;> by_cases h : iv.length = 0 <;> simp [h]

/-- C2 witness: a Begin event of the non-zero-length factor `[0,1]`. -/
theorem region_event_order_values_witness :
    ∃ e : RegionEvent,
      RegionEvent.make RegionEvtKind.Begin ⟨"r", [⟨0, 1⟩]⟩ 0 = some e ∧
      e.order = (match RegionEvtKind.Begin with
        | RegionEvtKind.Init => -2
        | RegionEvtKind.End => if (⟨0, 1⟩ : Interval).length = 0 then 0 else -1
        | RegionEvtKind.Begin => if (⟨0, 1⟩ : Interval).length = 0 then 0 else 1
        | RegionEvtKind.Done => 2) :=
  region_event_order_values RegionEvtKind.Begin ⟨"r", [⟨0, 1⟩]⟩ 0 ⟨0, 1⟩ rfl

/-- Comparison chain of `RegionEvent.__lt__` on explicit event records,
assuming only that equal kinds and equal contexts force equal orders
(true of constructed events on a common dimension). -/
theorem region_event_lt_chain (k1 k2 : RegionEvtKind) (r1 r2 : Region)
    (d1 d2 : Nat) (W1 W2 : ℚ) (O1 O2 : Int)
    (hO : k1 = k2 → r1 = r2 → O1 = O2) :
    (RegionEvent.lt ⟨k1, r1, d1, W1, O1⟩ ⟨k2, r2, d2, W2, O2⟩ = true ↔
      (W1 < W2 ∨ (W1 = W2 ∧ (O1 < O2 ∨ (O1 = O2 ∧
        (if r1.id = r2.id then k1.val < k2.val else r1.id < r2.id)))))) := by
  unfold RegionEvent.lt RegionEvent.eq
  by_cases hw : W1 = W2
  · subst hw
    by_cases hk : k1 = k2
    · subst hk
      by_cases hr : r1 = r2
      · subst hr
        have h0 : O1 = O2 := hO rfl rfl
        subst h0
        simp
      · by_cases ho : O1 = O2
        · subst ho
          by_cases hid : r1.id = r2.id
          · simp [hr, hid]
          · have hcond : ¬ (r1 = r2 ∨ r1.id = r2.id) := by
              rintro (rfl | h)
              · exact hid rfl
              · exact hid h
            simp [hr, hid, hcond]
        · simp [hr, ho]
    · by_cases ho : O1 = O2
      · subst ho
        by_cases hid : r1.id = r2.id
        · by_cases hr : r1 = r2 <;> simp [hk, hr, hid]
        · have hr : r1 ≠ r2 := by
            intro h
            exact hid (congrArg Region.id h)
          have hcond : ¬ (r1 = r2 ∨ r1.id = r2.id) := by
            rintro (h | h)
            · exact hr h
            · exact hid h
          simp [hk, hr, hid, hcond]
      · simp [hk, ho]
  · simp [hw]

/-- C3: the ordering on constructed RegionEvents compares lower `when`
first, then lower `order`; on an `order` tie the event of the lower kind
value comes first when the contexts share an id, otherwise the event of
the lexicographically lower context id; consequently a zero-length
region's Begin precedes its End. -/
theorem region_event_total_order (k1 k2 : RegionEvtKind) (r1 r2 : Region)
    (d : Nat) (e1 e2 : RegionEvent)
    (h1 : RegionEvent.make k1 r1 d = some e1)
    (h2 : RegionEvent.make k2 r2 d = some e2) :
    (RegionEvent.lt e1 e2 = true ↔
      (e1.when < e2.when ∨ (e1.when = e2.when ∧
        (e1.order < e2.order ∨ (e1.order = e2.order ∧
          (if r1.id = r2.id then k1.val < k2.val else r1.id < r2.id)))))) ∧
    (∀ x : ℚ, r1.factors.get? d = some ⟨x, x⟩ →
      ∀ eb ee : RegionEvent,
        RegionEvent.make RegionEvtKind.Begin r1 d = some eb →
        RegionEvent.make RegionEvtKind.End r1 d = some ee →
        RegionEvent.lt eb ee = true) := by
  constructor
  · unfold RegionEvent.make at h1 h2
    cases hg1 : r1.factors.get? d with
    | none => rw [hg1] at h1; cases h1
    | some iv1 =>
      rw [hg1] at h1
      cases hg2 : r2.factors.get? d with
      | none => rw [hg2] at h2; cases h2
      | some iv2 =>
        rw [hg2] at h2
        cases h1
        cases h2
        apply region_event_lt_chain
        intro hk hr
        subst hk
        subst hr
        rw [hg1] at hg2
        cases hg2
        rfl
  · intro x hx eb ee hb he
    unfold RegionEvent.make at hb he
    rw [hx] at hb he
    cases hb
    cases he
    unfold RegionEvent.lt RegionEvent.eq
    simp [RegionEvtKind.val, Interval.length]

/-- C3 witness: Begin events of `[0,4] id="a"` and `[3,7] id="b"` on
dimension 0. -/
theorem region_event_total_order_witness :
    RegionEvent.make RegionEvtKind.Begin ⟨"a", [⟨0, 4⟩]⟩ 0 =
      some ⟨RegionEvtKind.Begin, ⟨"a", [⟨0, 4⟩]⟩, 0, 0, 1⟩ ∧
    RegionEvent.make RegionEvtKind.Begin ⟨"b", [⟨3, 7⟩]⟩ 0 =
      some ⟨RegionEvtKind.Begin, ⟨"b", [⟨3, 7⟩]⟩, 0, 3, 1⟩ ∧
    (RegionEvent.lt ⟨RegionEvtKind.Begin, ⟨"a", [⟨0, 4⟩]⟩, 0, 0, 1⟩
        ⟨RegionEvtKind.Begin, ⟨"b", [⟨3, 7⟩]⟩, 0, 3, 1⟩ = true ↔
      ((0 : ℚ) < 3 ∨ ((0 : ℚ) = 3 ∧ ((1 : Int) < 1 ∨ ((1 : Int) = 1 ∧
        (if ("a" : String) = "b" then
           RegionEvtKind.Begin.val < RegionEvtKind.Begin.val
         else ("a" : String) < "b")))))) :=
  ⟨by norm_num [RegionEvent.make, Interval.length]; decide,
    by norm_num [RegionEvent.make, Interval.length]; decide,
    (region_event_total_order RegionEvtKind.Begin RegionEvtKind.Begin
      ⟨"a", [⟨0, 4⟩]⟩ ⟨"b", [⟨3, 7⟩]⟩ 0
      ⟨RegionEvtKind.Begin, ⟨"a", [⟨0, 4⟩]⟩, 0, 0, 1⟩
      ⟨RegionEvtKind.Begin, ⟨"b", [⟨3, 7⟩]⟩, 0, 3, 1⟩
      (by norm_num [RegionEvent.make, Interval.length]; decide)
      (by norm_num [RegionEvent.make, Interval.length]; decide)).1⟩

/-- Modelled from the spec: `Region.is_intersecting` (§4.2) — true iff
the dimensions agree and every pair of corresponding factors is
intersecting under `inc_bounds`.  The defining source file is not under
`src/`. -/
def Region.is_intersecting (self that : Region) (inc_bounds : Bool) : Bool :=
  decide (self.dimension = that.dimension) &&
    (List.zip self.factors that.factors).all
      (fun p => p.1.is_intersecting p.2 inc_bounds)

/-- Modelled from the spec: `Region.intersect` (§4.2) — absent when not
intersecting, else the Region of the per-dimension `get_intersection`
factors with a deterministic identifier built from the sorted endpoint
ids.  The defining source file is not under `src/`. -/
def Region.intersect (self that : Region) : Option Region :=
  if self.is_intersecting that false then
    some { id := if self.id ≤ that.id then self.id ++ that.id
                 else that.id ++ self.id
           factors := (List.zip self.factors that.factors).filterMap
             (fun p => p.1.get_intersection p.2 false) }
  else none

/-- An edge of the intersection graph: the two endpoint region ids and
the `intersect` data attribute stored by `addoverlap`. -/
structure GraphEdge where
  u : String
  v : String
  intersect : Option Region
deriving DecidableEq

/-- The networkx `Graph` held by `OpslConstr`: region-id nodes with
Region payloads, and edges with their `intersect` attribute (most recent
first, as `add_edge` overrides earlier attributes on lookup). -/
structure IGraph where
  nodes : List (String × Region)
  edges : List GraphEdge
deriving DecidableEq

/-- `OpslConstr.addoverlap(regionpair)` from
`sources/algorithms/rigraphs/opslconstr.py`: adds the edge between the
pair's region ids with the `intersect` attribute set to
`regionpair[0].intersect(regionpair[1])`. -/
def OpslConstr.addoverlap (g : IGraph) (regionpair : Region × Region) : IGraph :=
  { g with edges :=
      { u := regionpair.1.id
        v := regionpair.2.id
        intersect := regionpair.1.intersect regionpair.2 } :: g.edges }

/-- C7: every edge present after `addoverlap` either was already in the
graph or joins the ids of the processed pair and carries as its label the
intersection `A.intersect(B)` of that pair. -/
theorem addoverlap_edge_label (g : IGraph) (pair : Region × Region)
    (e : GraphEdge) (he : e ∈ (OpslConstr.addoverlap g pair).edges) :
    e ∈ g.edges ∨
      (e.u = pair.1.id ∧ e.v = pair.2.id ∧
        e.intersect = pair.1.intersect pair.2) := by
  unfold OpslConstr.addoverlap at he
  rcases List.mem_cons.mp he with h | h
  · right
    subst h
    exact ⟨rfl, rfl, rfl⟩
  · left
    exact h

/-- C7 witness: the edge added for the pair `[0,2] id="a"`, `[1,3]
id="b"` on the empty graph. -/
theorem addoverlap_edge_label_witness :
    (⟨"a", "b", Region.intersect ⟨"a", [⟨0, 2⟩]⟩ ⟨"b", [⟨1, 3⟩]⟩⟩ : GraphEdge) ∈
      (OpslConstr.addoverlap ⟨[], []⟩ (⟨"a", [⟨0, 2⟩]⟩, ⟨"b", [⟨1, 3⟩]⟩)).edges ∧
    ((⟨"a", "b", Region.intersect ⟨"a", [⟨0, 2⟩]⟩ ⟨"b", [⟨1, 3⟩]⟩⟩ : GraphEdge) ∈
        (⟨[], []⟩ : IGraph).edges ∨
      (("a" : String) = "a" ∧ ("b" : String) = "b" ∧
        Region.intersect ⟨"a", [⟨0, 2⟩]⟩ ⟨"b", [⟨1, 3⟩]⟩ =
          Region.intersect ⟨"a", [⟨0, 2⟩]⟩ ⟨"b", [⟨1, 3⟩]⟩)) :=
  ⟨List.mem_cons_self _ _,
    addoverlap_edge_label ⟨[], []⟩ (⟨"a", [⟨0, 2⟩]⟩, ⟨"b", [⟨1, 3⟩]⟩)
      ⟨"a", "b", Region.intersect ⟨"a", [⟨0, 2⟩]⟩ ⟨"b", [⟨1, 3⟩]⟩⟩
      (List.mem_cons_self _ _)⟩

/-- `RectangleObject`: the fields of the generator's rectangle objects
that `RectangleSweepline` reads (`shapes.py` is a collaborator outside
the specified core). -/
structure RectangleObject where
  id_ : String
  x1 : ℚ
  x2 : ℚ
  y1 : ℚ
  y2 : ℚ
deriving DecidableEq

/-- One overlap dict produced by `RectangleSweepline._check_overlaps`:
keys `'1'`, `'2'`, `'y_length'`, `'x_start'`. -/
structure OverlapRec where
  fst : String
  snd : String
  y_length : ℚ
  x_start : ℚ
deriving DecidableEq

/-- Loop body of `RectangleSweepline._check_overlaps` in
`src/algorithm.py`.  The running `overlap_length` is threaded through the
fold because the Python variable is initialised once before the loop:
when no branch of the `if/elif` chain matches, the value left by the
previous iteration is kept. -/
def RectangleSweepline.checkOverlapsStep (new_rect : RectangleObject)
    (current_point : ℚ) (st : List OverlapRec × ℚ)
    (possible_rect : RectangleObject) : List OverlapRec × ℚ :=
  let overlap_length :=
    if new_rect.y1 > possible_rect.y1 ∧ new_rect.y1 < possible_rect.y2 ∧
       new_rect.y2 > possible_rect.y2 then
      possible_rect.y2 - new_rect.y1
    else if new_rect.y1 < possible_rect.y1 ∧ new_rect.y2 > possible_rect.y1 ∧
            new_rect.y2 < possible_rect.y2 then
      new_rect.y2 - possible_rect.y1
    else if new_rect.y1 < possible_rect.y1 ∧ new_rect.y2 > possible_rect.y2 then
      new_rect.y2 - new_rect.y1
    else if new_rect.y1 > possible_rect.y1 ∧ new_rect.y2 < possible_rect.y2 then
      possible_rect.y2 - possible_rect.y1
    else st.2
  if overlap_length > 0 then
    (st.1 ++ [⟨possible_rect.id_, new_rect.id_, overlap_length, current_point⟩],
      overlap_length)
  else (st.1, overlap_length)

/-- `RectangleSweepline._check_overlaps(new_rect, active_rects,
current_point)`: folds over the active rectangles in iteration order with
`overlap_length` initialised to `0` once, returning `new_overlaps`. -/
def RectangleSweepline.checkOverlaps (new_rect : RectangleObject)
    (active_rects : List RectangleObject) (current_point : ℚ) :
    List OverlapRec :=
  (active_rects.foldl
    (RectangleSweepline.checkOverlapsStep new_rect current_point)
    ([], 0)).1

/-- C10: with the new rectangle spanning `y ∈ [0,5]` and actives
`a (y ∈ [−2,3])` then `b (y ∈ [100,200])`, `_check_overlaps` reports the
pair with `b` — whose y-range is disjoint from the new rectangle's — with
the stale `overlap_length` computed for `a`. -/
theorem check_overlaps_reports_disjoint_pair :
    RectangleSweepline.checkOverlaps ⟨"n", 0, 10, 0, 5⟩
      [⟨"a", 0, 10, -2, 3⟩, ⟨"b", 0, 10, 100, 200⟩] 0 =
      [⟨"a", "n", 3, 0⟩, ⟨"b", "n", 3, 0⟩] ∧
    (⟨"n", 0, 10, 0, 5⟩ : RectangleObject).y2 <
      (⟨"b", 0, 10, 100, 200⟩ : RectangleObject).y1 := by
  constructor
  · norm_num [RectangleSweepline.checkOverlaps,
      RectangleSweepline.checkOverlapsStep, List.foldl]
  · norm_num

end OverlapGraph
